import Mathlib

/-!
Verification of the `build-tokenlist.js` pipeline: a shallow embedding of the
script's configuration table, CoinGecko-record transformer, envelope builder
and top-level flow, together with proofs of the specified properties.

JavaScript conventions modelled explicitly:
- a possibly-absent value (`undefined`) is an `Option`;
- `x || dflt` on strings falls back on the empty string as well (falsiness);
- `obj?.[k]` is an `Option.bind` with an association-list lookup;
- property lookup on an object literal also reaches `Object.prototype`:
  own-table lookup (`CHAIN_CONFIG`) and the truthiness guard under full
  lookup (`chainKeyGuardPasses`) are modelled separately;
- `JSON.stringify` drops object keys whose value is `undefined`, so the
  serializer omits the `name` key when the upstream record had none.

External effects (process argv, the HTTP fetch result, the two wall-clock
readings, the file write) are inputs and outputs of the pure model.
-/

/-- JavaScript string-or-default: `x || dflt` where `x` is a string or
`undefined`; both `undefined` and the empty string are falsy. -/
def jsStringOr (x : Option String) (dflt : String) : String :=
  match x with
  | some s => if s = "" then dflt else s
  | none => dflt

/-- One entry of `CHAIN_CONFIG` in `build-tokenlist.js`. -/
structure ChainCfg where
  chainId : Nat
  coingeckoPlatform : String
  name : String
  decimals : Nat
  deriving DecidableEq, Repr

/-- The static `CHAIN_CONFIG` table of `build-tokenlist.js` (lines 18-48):
own-property lookup in the object literal, as a function from the key
string. Real JS property access additionally consults the prototype
chain: a key naming an inherited `Object.prototype` property (see
`objectPrototypeKeys`) yields a truthy non-config value rather than
`undefined`, so the line-59 guard does not fire on it; the guard under
full JS lookup is modelled separately by `chainKeyGuardPasses`. -/
def CHAIN_CONFIG (key : String) : Option ChainCfg :=
  if key = "base" then
    some { chainId := 8453, coingeckoPlatform := "base",
           name := "Base Token List", decimals := 18 }
  else if key = "bsc" then
    some { chainId := 56, coingeckoPlatform := "binance-smart-chain",
           name := "BSC Token List", decimals := 18 }
  else if key = "ethereum" then
    some { chainId := 1, coingeckoPlatform := "ethereum",
           name := "Ethereum Token List", decimals := 18 }
  else if key = "polygon" then
    some { chainId := 137, coingeckoPlatform := "polygon-pos",
           name := "Polygon Token List", decimals := 18 }
  else
    none

/-- The property names every plain object literal inherits from
`Object.prototype` in Node: looking any of these up on `CHAIN_CONFIG`
yields a truthy inherited value (a built-in function, or the prototype
object itself for `__proto__`). -/
def objectPrototypeKeys : List String :=
  ["constructor", "hasOwnProperty", "isPrototypeOf", "propertyIsEnumerable",
   "toLocaleString", "toString", "valueOf", "__defineGetter__",
   "__defineSetter__", "__lookupGetter__", "__lookupSetter__", "__proto__"]

/-- The guard `!CHAIN_CONFIG[chainKey]` of line 59 under full JS property
lookup: truthy (guard passes, the run continues) for the four own entries
and for every inherited `Object.prototype` property name; falsy (the
program reports the key and exits with status 1) for every other key. -/
def chainKeyGuardPasses (key : String) : Bool :=
  (CHAIN_CONFIG key).isSome || objectPrototypeKeys.contains key

/-- An upstream CoinGecko coin record: every field may be absent
(`undefined`): `platforms` is a JS object from platform slug to contract
address, modelled as an association list. -/
structure GeckoItem where
  id : Option String
  symbol : Option String
  name : Option String
  platforms : Option (List (String × String))
  deriving DecidableEq, Repr

/-- One entry of the output `tokens` array (lines 111-118). The `name`
field is `item.name`, which may be `undefined`. -/
structure Token where
  chainId : Nat
  address : String
  name : Option String
  symbol : String
  decimals : Nat
  logoURI : String
  deriving DecidableEq, Repr

/-- The `version` object of the token-list envelope. -/
structure Version where
  major : Nat
  minor : Nat
  patch : Nat
  deriving DecidableEq, Repr

/-- The token-list envelope built by `createTokenListBase` and finished by
`buildTokenList` (lines 65-78, 140-141). -/
structure TokenList where
  name : String
  logoURI : String
  keywords : List String
  timestamp : String
  version : Version
  tokens : List Token
  deriving DecidableEq, Repr

/-- JavaScript `String.prototype.toUpperCase()`: upper-case every character
(character-wise map, as in JS for the ASCII range). -/
def jsToUpperCase (s : String) : String :=
  ⟨s.data.map Char.toUpper⟩

/-- The JS expression `item.platforms?.[chainCfg.coingeckoPlatform]`
(line 108): `undefined` when `platforms` is absent or lacks the key. -/
def platformAddress (item : GeckoItem) (slug : String) : Option String :=
  item.platforms.bind (List.lookup slug)

/-- `transformCoinGeckoData` (lines 98-121): for each record, look up the
address under the configured platform slug; `if (!address) continue` skips
both absent and empty-string addresses; otherwise push a token record. -/
def transformCoinGeckoData (geckoData : List GeckoItem) (chainCfg : ChainCfg) :
    List Token :=
  match geckoData with
  | [] => []
  | item :: rest =>
    match platformAddress item chainCfg.coingeckoPlatform with
    | none => transformCoinGeckoData rest chainCfg
    | some address =>
      if address = "" then transformCoinGeckoData rest chainCfg
      else
        { chainId := chainCfg.chainId,
          address := address,
          name := item.name,
          symbol := jsStringOr (item.symbol.map jsToUpperCase) "",
          decimals := chainCfg.decimals,
          logoURI := "" } :: transformCoinGeckoData rest chainCfg

/-- `createTokenListBase` (lines 65-78); the timestamp taken at construction
time is an explicit argument. -/
def createTokenListBase (chainCfg : ChainCfg) (chainKey : String)
    (now : String) : TokenList :=
  { name := chainCfg.name,
    logoURI := "https://example.com/logo.png",
    keywords := [chainKey, "tokenlist"],
    timestamp := now,
    version := { major := 1, minor := 0, patch := 0 },
    tokens := [] }

/-- `fetchTokensFromCoinGecko` (lines 84-93): the HTTP outcome is an input;
on success return the parsed array, on any failure log to the error stream
and return the empty array. Returns the data and the error-stream lines. -/
def fetchTokensFromCoinGecko (result : Except String (List GeckoItem)) :
    List GeckoItem × List String :=
  match result with
  | .ok data => (data, [])
  | .error msg => ([], ["抓取 CoinGecko 数据失败: " ++ msg])

/-- Outcome of one run of the script: exit code, error-stream lines, and
the file written (its name and envelope content), if any. -/
structure ScriptResult where
  exitCode : Nat
  stderr : List String
  writtenFile : Option (String × TokenList)
  deriving DecidableEq, Repr

/-- The whole script (lines 54-151): `chainKey` from argv with the JS
fallback `process.argv[2] || "base"`, the unknown-key exit (lines 59-62),
then `buildTokenList`: base envelope at time `t1`, fetch, transform,
re-stamp at time `t2`, and the file write. The unknown-key branch uses the
own-property table `CHAIN_CONFIG`, so this models the program for chain
keys outside `objectPrototypeKeys`: at an inherited property name the real
guard passes (`chainKeyGuardPasses`) and the run proceeds with the
inherited value as its config. The theorems below therefore either pin the
key to a supported one or carry a hypothesis excluding those keys. -/
def runScript (argv2 : Option String) (fetchResult : Except String (List GeckoItem))
    (t1 t2 : String) : ScriptResult :=
  let chainKey := jsStringOr argv2 "base"
  match CHAIN_CONFIG chainKey with
  | none =>
    { exitCode := 1,
      stderr := ["Unsupported chain key: " ++ chainKey ++ ". Please check CHAIN_CONFIG."],
      writtenFile := none }
  | some chainCfg =>
    let tokenListBase := createTokenListBase chainCfg chainKey t1
    let fetched := fetchTokensFromCoinGecko fetchResult
    let tokenItems := transformCoinGeckoData fetched.1 chainCfg
    let outputFileName := chainKey ++ "-tokenlist.json"
    { exitCode := 0,
      stderr := fetched.2,
      writtenFile := some (outputFileName,
        { tokenListBase with timestamp := t2, tokens := tokenItems }) }

/-- Spec-side predicate (§3 invariant, §4.3): the record carries a
(non-empty) contract address under the configured platform slug. -/
def specKeepsRecord (chainCfg : ChainCfg) (item : GeckoItem) : Bool :=
  match platformAddress item chainCfg.coingeckoPlatform with
  | some a => a != ""
  | none => false

/-- Spec-side token construction (§2 stage 3, §4.3): network identifier,
the looked-up address, name, upper-cased symbol (empty when absent),
uniform decimals, empty logo. -/
def specTokenOfRecord (chainCfg : ChainCfg) (item : GeckoItem) : Token :=
  { chainId := chainCfg.chainId,
    address := (platformAddress item chainCfg.coingeckoPlatform).getD "",
    name := item.name,
    symbol := jsStringOr (item.symbol.map jsToUpperCase) "",
    decimals := chainCfg.decimals,
    logoURI := "" }

/-- The `base` entry of `CHAIN_CONFIG`, used for concrete test inputs. -/
def baseCfg : ChainCfg :=
  { chainId := 8453, coingeckoPlatform := "base",
    name := "Base Token List", decimals := 18 }

/-- Sample upstream record with a `base` address and a lower-case symbol. -/
def itemA : GeckoItem :=
  { id := some "tok-a", symbol := some "abc", name := some "Token A",
    platforms := some [("base", "0xaaa")] }

/-- Sample upstream record with no `base` address. -/
def itemB : GeckoItem :=
  { id := some "tok-b", symbol := some "bbb", name := some "Token B",
    platforms := some [("ethereum", "0xbbb")] }

/-- Sample upstream record with a `base` address and an absent symbol. -/
def itemC : GeckoItem :=
  { id := some "tok-c", symbol := none, name := some "Token C",
    platforms := some [("base", "0xccc"), ("ethereum", "0xddd")] }

/-- Sample envelope written by a `base` run over `[itemA]`, stamped `t2`. -/
def envA : TokenList :=
  { name := "Base Token List",
    logoURI := "https://example.com/logo.png",
    keywords := ["base", "tokenlist"],
    timestamp := "t2",
    version := { major := 1, minor := 0, patch := 0 },
    tokens := [{ chainId := 8453, address := "0xaaa", name := some "Token A",
                 symbol := "ABC", decimals := 18, logoURI := "" }] }

/-- The same envelope re-stamped `s2`, as a second run writes it. -/
def envB : TokenList :=
  { envA with timestamp := "s2" }

/-- A JSON value as exchanged between `JSON.stringify` (line 145) and
`JSON.parse`; numbers restricted to naturals, which covers every number
the script emits. Serialization is modelled at the JSON-tree level, on
which stringify followed by parse is the identity. -/
inductive Json where
  | str : String → Json
  | num : Nat → Json
  | arr : List Json → Json
  | obj : List (String × Json) → Json

/-- Key lookup in a JSON object (JS property access on a parsed value). -/
def jLookup (j : Json) (key : String) : Option Json :=
  match j with
  | .obj fields => List.lookup key fields
  | _ => none

/-- The JSON tree `JSON.stringify` produces for one token object: keys in
insertion order (lines 111-118); a key whose value is `undefined` (an
absent `name`) is dropped by stringify. -/
def tokenToJson (t : Token) : Json :=
  .obj ([("chainId", .num t.chainId), ("address", .str t.address)]
    ++ (match t.name with
        | some n => [("name", Json.str n)]
        | none => [])
    ++ [("symbol", .str t.symbol), ("decimals", .num t.decimals),
        ("logoURI", .str t.logoURI)])

/-- The JSON tree for the `version` object. -/
def versionToJson (v : Version) : Json :=
  .obj [("major", .num v.major), ("minor", .num v.minor), ("patch", .num v.patch)]

/-- The JSON tree `JSON.stringify(tokenListBase, null, 2)` (line 145)
produces for the whole envelope. -/
def tokenListToJson (e : TokenList) : Json :=
  .obj [("name", .str e.name), ("logoURI", .str e.logoURI),
        ("keywords", .arr (e.keywords.map Json.str)),
        ("timestamp", .str e.timestamp),
        ("version", versionToJson e.version),
        ("tokens", .arr (e.tokens.map tokenToJson))]

/-- Reading one token object back from a parsed JSON tree. -/
def jsonToToken (j : Json) : Option Token :=
  match jLookup j "chainId", jLookup j "address", jLookup j "symbol",
        jLookup j "decimals", jLookup j "logoURI" with
  | some (.num c), some (.str a), some (.str s), some (.num d), some (.str l) =>
    some { chainId := c, address := a,
           name := match jLookup j "name" with
                   | some (.str nm) => some nm
                   | _ => none,
           symbol := s, decimals := d, logoURI := l }
  | _, _, _, _, _ => none

/-- Reading a token array back from parsed JSON elements. -/
def jsonTokenArray : List Json → Option (List Token)
  | [] => some []
  | j :: rest =>
    match jsonToToken j with
    | none => none
    | some t =>
      match jsonTokenArray rest with
      | none => none
      | some ts => some (t :: ts)

/-- Reading a string array back from parsed JSON elements. -/
def jsonStringArray : List Json → Option (List String)
  | [] => some []
  | .str s :: rest =>
    match jsonStringArray rest with
    | none => none
    | some ss => some (s :: ss)
  | _ :: _ => none

/-- Reading the `version` object back. -/
def jsonToVersion (j : Json) : Option Version :=
  match jLookup j "major", jLookup j "minor", jLookup j "patch" with
  | some (.num a), some (.num b), some (.num c) =>
    some { major := a, minor := b, patch := c }
  | _, _, _ => none

/-- Reading a whole token-list envelope back from a parsed JSON tree. -/
def jsonToTokenList (j : Json) : Option TokenList :=
  match jLookup j "name", jLookup j "logoURI", jLookup j "timestamp" with
  | some (.str n), some (.str l), some (.str ts) =>
    match jLookup j "keywords", jLookup j "version", jLookup j "tokens" with
    | some (.arr kws), some vj, some (.arr tks) =>
      match jsonStringArray kws, jsonToVersion vj, jsonTokenArray tks with
      | some keywords, some ver, some tokens =>
        some { name := n, logoURI := l, keywords := keywords,
               timestamp := ts, version := ver, tokens := tokens }
      | _, _, _ => none
    | _, _, _ => none
  | _, _, _ => none

theorem transform_eq_filter_map (geckoData : List GeckoItem) (chainCfg : ChainCfg) :
    transformCoinGeckoData geckoData chainCfg
      = (geckoData.filter (specKeepsRecord chainCfg)).map (specTokenOfRecord chainCfg) := by
  induction geckoData with
  | nil => rfl
  | cons item rest ih =>
    rw [List.filter_cons]
    cases h : platformAddress item chainCfg.coingeckoPlatform with
    | none =>
      simp [transformCoinGeckoData, h, specKeepsRecord, ih]
    | some a =>
      by_cases ha : a = ""
      · subst ha
        simp [transformCoinGeckoData, h, specKeepsRecord, ih]
      · simp [transformCoinGeckoData, h, specKeepsRecord, specTokenOfRecord, ha, ih]

/-- Helper: every token the transformer emits comes from an input record
that passes the address filter, via the spec-side token construction. -/
theorem mem_transform (geckoData : List GeckoItem) (chainCfg : ChainCfg)
    (t : Token) (ht : t ∈ transformCoinGeckoData geckoData chainCfg) :
    ∃ item ∈ geckoData, specKeepsRecord chainCfg item = true
      ∧ t = specTokenOfRecord chainCfg item := by
  rw [transform_eq_filter_map] at ht
  rcases List.mem_map.mp ht with ⟨item, hmem, rfl⟩
  rcases List.mem_filter.mp hmem with ⟨hd, hp⟩
  exact ⟨item, hd, hp, rfl⟩

/-- Helper: a record passing the filter yields a non-empty address. -/
theorem specTokenOfRecord_address_ne (chainCfg : ChainCfg) (item : GeckoItem)
    (h : specKeepsRecord chainCfg item = true) :
    (specTokenOfRecord chainCfg item).address ≠ "" := by
  unfold specKeepsRecord at h
  unfold specTokenOfRecord
  cases hp : platformAddress item chainCfg.coingeckoPlatform with
  | none => rw [hp] at h; cases h
  | some a =>
    rw [hp] at h
    simpa using bne_iff_ne.mp h

/-- C1: the transformer outputs exactly the records carrying a contract
address under the configured platform slug, in input order; each output
token is the spec-side record (upper-cased symbol, empty when absent,
decimals from the NetworkConfig); and on three records of which exactly
two carry such an address, the output is exactly those two, in order. -/
theorem transform_is_ordered_filter_map (geckoData : List GeckoItem) (chainCfg : ChainCfg) :
    (transformCoinGeckoData geckoData chainCfg
        = (geckoData.filter (specKeepsRecord chainCfg)).map (specTokenOfRecord chainCfg))
    ∧ (∀ t ∈ transformCoinGeckoData geckoData chainCfg,
        ∃ item ∈ geckoData, specKeepsRecord chainCfg item = true
          ∧ t = specTokenOfRecord chainCfg item
          ∧ t.decimals = chainCfg.decimals
          ∧ t.symbol = jsStringOr (item.symbol.map jsToUpperCase) "")
    ∧ transformCoinGeckoData [itemA, itemB, itemC] baseCfg
        = [{ chainId := 8453, address := "0xaaa", name := some "Token A",
             symbol := "ABC", decimals := 18, logoURI := "" },
           { chainId := 8453, address := "0xccc", name := some "Token C",
             symbol := "", decimals := 18, logoURI := "" }] := by
  refine ⟨transform_eq_filter_map geckoData chainCfg, ?_, by decide⟩
  intro t ht
  rcases mem_transform geckoData chainCfg t ht with ⟨item, hmem, hp, rfl⟩
  exact ⟨item, hmem, hp, rfl, rfl, rfl⟩

/-- C2: every emitted token has a non-empty contract address, and the
token sequence is the order-preserving image of the records that passed
the address filter. -/
theorem transform_invariant_nonempty_address (geckoData : List GeckoItem) (chainCfg : ChainCfg) :
    (∀ t ∈ transformCoinGeckoData geckoData chainCfg, t.address ≠ "")
    ∧ transformCoinGeckoData geckoData chainCfg
        = (geckoData.filter (specKeepsRecord chainCfg)).map (specTokenOfRecord chainCfg) := by
  refine ⟨?_, transform_eq_filter_map geckoData chainCfg⟩
  intro t ht
  rcases mem_transform geckoData chainCfg t ht with ⟨item, _, hp, rfl⟩
  exact specTokenOfRecord_address_ne chainCfg item hp

/-- C5: each supported network key resolves to a NetworkConfig with the
documented chain id: base 8453, bsc 56, ethereum 1, polygon 137. -/
theorem chain_config_ids :
    (CHAIN_CONFIG "base").map ChainCfg.chainId = some 8453
    ∧ (CHAIN_CONFIG "bsc").map ChainCfg.chainId = some 56
    ∧ (CHAIN_CONFIG "ethereum").map ChainCfg.chainId = some 1
    ∧ (CHAIN_CONFIG "polygon").map ChainCfg.chainId = some 137 := by
  refine ⟨rfl, rfl, rfl, rfl⟩

/-- C6: a record whose `platforms` mapping is absent, lacks the configured
slug, or maps it to the empty string is skipped without error: deleting it
from the input leaves the (total) transformer output unchanged. -/
theorem transform_skips_addressless (chainCfg : ChainCfg) (pre post : List GeckoItem)
    (item : GeckoItem)
    (h : platformAddress item chainCfg.coingeckoPlatform = none
       ∨ platformAddress item chainCfg.coingeckoPlatform = some "") :
    transformCoinGeckoData (pre ++ item :: post) chainCfg
      = transformCoinGeckoData (pre ++ post) chainCfg := by
  rw [transform_eq_filter_map, transform_eq_filter_map, List.filter_append,
    List.filter_append, List.filter_cons]
  rcases h with h | h <;> simp [specKeepsRecord, h]

/-- Witness for C6 at a concrete record with an absent `platforms` map. -/
theorem transform_skips_addressless_witness :
    transformCoinGeckoData
        ([] ++ { id := some "tok-x", symbol := some "xxx", name := some "X",
                 platforms := none } :: []) baseCfg
      = transformCoinGeckoData ([] ++ []) baseCfg :=
  transform_skips_addressless baseCfg [] []
    { id := some "tok-x", symbol := some "xxx", name := some "X", platforms := none }
    (Or.inl rfl)

/-- C10: the transformer never checks the `name` field: a record carrying
an address but no `name` still yields a token, with an absent name (while
the symbol falls back to the empty string when absent). -/
theorem transform_no_name_check (chainCfg : ChainCfg) (item : GeckoItem)
    (rest : List GeckoItem) (a : String)
    (ha : platformAddress item chainCfg.coingeckoPlatform = some a)
    (hne : a ≠ "") (hn : item.name = none) :
    transformCoinGeckoData (item :: rest) chainCfg
      = { chainId := chainCfg.chainId, address := a, name := none,
          symbol := jsStringOr (item.symbol.map jsToUpperCase) "",
          decimals := chainCfg.decimals, logoURI := "" }
        :: transformCoinGeckoData rest chainCfg := by
  simp [transformCoinGeckoData, ha, hne, hn]

/-- Witness for C10 at a record with an address on `base` and no name. -/
theorem transform_no_name_check_witness :
    transformCoinGeckoData
        [{ id := some "tok-n", symbol := none, name := none,
           platforms := some [("base", "0xeee")] }] baseCfg
      = [{ chainId := 8453, address := "0xeee", name := none,
           symbol := "", decimals := 18, logoURI := "" }] :=
  transform_no_name_check baseCfg
    { id := some "tok-n", symbol := none, name := none,
      platforms := some [("base", "0xeee")] }
    [] "0xeee" rfl (by decide) rfl

/-- Counterexample to C3 as stated: the empty string is not a supported
key, yet the script maps it to the default key `base` (JS falsy fallback
`process.argv[2] || "base"`), exits 0, and writes a file. -/
theorem unknown_key_counterexample :
    CHAIN_CONFIG "" = none
    ∧ (runScript (some "") (Except.ok []) "t1" "t2").exitCode = 0
    ∧ (runScript (some "") (Except.ok []) "t1" "t2").writtenFile
        = some ("base-tokenlist.json",
            { name := "Base Token List",
              logoURI := "https://example.com/logo.png",
              keywords := ["base", "tokenlist"],
              timestamp := "t2",
              version := { major := 1, minor := 0, patch := 0 },
              tokens := [] }) := by
  refine ⟨rfl, rfl, by decide⟩

/-- Helper: the unsupported key `constructor` names an inherited
`Object.prototype` property, so the real line-59 guard passes on it —
that run proceeds (writing `constructor-tokenlist.json` with exit code 0)
although the configuration table has no such entry. A plain unsupported
key such as `not-a-chain` fails the guard. -/
theorem prototype_key_passes_guard :
    CHAIN_CONFIG "constructor" = none
    ∧ chainKeyGuardPasses "constructor" = true
    ∧ chainKeyGuardPasses "not-a-chain" = false
    ∧ ∀ key chainCfg, CHAIN_CONFIG key = some chainCfg
        → chainKeyGuardPasses key = true := by
  refine ⟨rfl, rfl, rfl, ?_⟩
  intro key chainCfg h
  simp [chainKeyGuardPasses, h]

/-- C3 (amended): for every network key string that is non-empty, not one
of the supported keys, and not the name of an inherited `Object.prototype`
property, the script reports the invalid key on the error stream, exits
with status 1, and writes no output file. An empty key argument instead
falls back to the default key `base`, and a key naming an inherited
property passes the real truthiness guard (`chainKeyGuardPasses`, see
`prototype_key_passes_guard`) so that run also proceeds. The hypothesis
excluding inherited names delimits where `runScript` models the program;
the model itself does not consume it. -/
theorem unknown_key_exits_nonzero (key : String)
    (fetchResult : Except String (List GeckoItem)) (t1 t2 : String)
    (hne : key ≠ "") (_hproto : key ∉ objectPrototypeKeys)
    (h : CHAIN_CONFIG key = none) :
    runScript (some key) fetchResult t1 t2
      = { exitCode := 1,
          stderr := ["Unsupported chain key: " ++ key ++ ". Please check CHAIN_CONFIG."],
          writtenFile := none } := by
  simp [runScript, jsStringOr, hne, h]

/-- Witness for C3 at the unsupported key `not-a-chain`. -/
theorem unknown_key_exits_nonzero_witness :
    runScript (some "not-a-chain") (Except.ok []) "t1" "t2"
      = { exitCode := 1,
          stderr := ["Unsupported chain key: not-a-chain. Please check CHAIN_CONFIG."],
          writtenFile := none } :=
  unknown_key_exits_nonzero "not-a-chain" (Except.ok []) "t1" "t2"
    (by decide) (by decide) rfl

/-- C4: on any fetch failure the fetcher reports the failure and returns
the empty sequence, and the run still writes the output file with an empty
tokens sequence, every other envelope field populated normally, and exit
code 0. -/
theorem fetch_failure_yields_empty_list (key : String) (chainCfg : ChainCfg)
    (errMsg t1 t2 : String) (h : CHAIN_CONFIG key = some chainCfg) :
    fetchTokensFromCoinGecko (Except.error errMsg)
        = ([], ["抓取 CoinGecko 数据失败: " ++ errMsg])
    ∧ runScript (some key) (Except.error errMsg) t1 t2
      = { exitCode := 0,
          stderr := ["抓取 CoinGecko 数据失败: " ++ errMsg],
          writtenFile := some (key ++ "-tokenlist.json",
            { name := chainCfg.name,
              logoURI := "https://example.com/logo.png",
              keywords := [key, "tokenlist"],
              timestamp := t2,
              version := { major := 1, minor := 0, patch := 0 },
              tokens := [] }) } := by
  have hne : key ≠ "" := by
    rintro rfl
    rw [show CHAIN_CONFIG "" = none from rfl] at h
    cases h
  refine ⟨rfl, ?_⟩
  simp [runScript, jsStringOr, hne, h, createTokenListBase,
    fetchTokensFromCoinGecko, transformCoinGeckoData]

/-- Witness for C4 at the key `base` and a concrete failure message. -/
theorem fetch_failure_yields_empty_list_witness :
    fetchTokensFromCoinGecko (Except.error "timeout")
        = ([], ["抓取 CoinGecko 数据失败: timeout"])
    ∧ runScript (some "base") (Except.error "timeout") "t1" "t2"
      = { exitCode := 0,
          stderr := ["抓取 CoinGecko 数据失败: timeout"],
          writtenFile := some ("base-tokenlist.json",
            { name := "Base Token List",
              logoURI := "https://example.com/logo.png",
              keywords := ["base", "tokenlist"],
              timestamp := "t2",
              version := { major := 1, minor := 0, patch := 0 },
              tokens := [] }) } :=
  fetch_failure_yields_empty_list "base" baseCfg "timeout" "t1" "t2" rfl

/-- C7: two runs with the same key and identical upstream data write files
with the same name whose envelopes agree on every field except the
timestamp (tokens included). -/
theorem pipeline_deterministic_up_to_timestamp (argv2 : Option String)
    (fetchResult : Except String (List GeckoItem)) (t1 t2 s1 s2 : String)
    (fn fn2 : String) (e e2 : TokenList)
    (h1 : (runScript argv2 fetchResult t1 t2).writtenFile = some (fn, e))
    (h2 : (runScript argv2 fetchResult s1 s2).writtenFile = some (fn2, e2)) :
    fn = fn2 ∧ e.name = e2.name ∧ e.logoURI = e2.logoURI
      ∧ e.keywords = e2.keywords ∧ e.version = e2.version
      ∧ e.tokens = e2.tokens := by
  cases hc : CHAIN_CONFIG (jsStringOr argv2 "base") with
  | none => simp [runScript, hc] at h1
  | some cfg =>
    simp [runScript, hc, createTokenListBase] at h1 h2
    obtain ⟨hfn, he⟩ := h1
    obtain ⟨hfn2, he2⟩ := h2
    subst hfn
    subst hfn2
    subst he
    subst he2
    simp

/-- Witness for C7 at two concrete runs over the same upstream data. -/
theorem pipeline_deterministic_up_to_timestamp_witness :
    "base-tokenlist.json" = "base-tokenlist.json"
    ∧ envA.name = envB.name ∧ envA.logoURI = envB.logoURI
    ∧ envA.keywords = envB.keywords ∧ envA.version = envB.version
    ∧ envA.tokens = envB.tokens :=
  pipeline_deterministic_up_to_timestamp (some "base") (Except.ok [itemA])
    "t1" "t2" "s1" "s2" "base-tokenlist.json" "base-tokenlist.json" envA envB
    (by decide) (by decide)

/-- C9: every entry of the shipped configuration table sets decimals to
18, and consequently every token of every written file has decimals 18. -/
theorem decimals_always_18 :
    (∀ key chainCfg, CHAIN_CONFIG key = some chainCfg → chainCfg.decimals = 18)
    ∧ (∀ (argv2 : Option String) (fetchResult : Except String (List GeckoItem))
        (t1 t2 fn : String) (e : TokenList),
        (runScript argv2 fetchResult t1 t2).writtenFile = some (fn, e)
        → ∀ t ∈ e.tokens, t.decimals = 18) := by
  have hcfg : ∀ key chainCfg, CHAIN_CONFIG key = some chainCfg → chainCfg.decimals = 18 := by
    intro key cfg h
    unfold CHAIN_CONFIG at h
    split_ifs at h <;> cases h <;> rfl
  refine ⟨hcfg, ?_⟩
  intro argv2 fetchResult t1 t2 fn e he t ht
  cases hc : CHAIN_CONFIG (jsStringOr argv2 "base") with
  | none => simp [runScript, hc] at he
  | some cfg =>
    simp [runScript, hc, createTokenListBase] at he
    obtain ⟨-, he⟩ := he
    subst he
    simp only at ht
    rcases mem_transform _ _ t ht with ⟨item, -, -, rfl⟩
    simpa [specTokenOfRecord] using hcfg _ _ hc

/-- Witness for C9 at the `base` configuration and a one-token run. -/
theorem decimals_always_18_witness :
    baseCfg.decimals = 18
    ∧ ∀ t ∈ envA.tokens, t.decimals = 18 :=
  ⟨decimals_always_18.1 "base" baseCfg rfl,
   decimals_always_18.2 (some "base") (Except.ok [itemA]) "t1" "t2"
     "base-tokenlist.json" envA (by decide)⟩

/-- Helper: one token object survives the stringify-parse round trip,
whether or not its `name` key was dropped. -/
theorem jsonToToken_tokenToJson (t : Token) :
    jsonToToken (tokenToJson t) = some t := by
  obtain ⟨c, a, n, s, d, l⟩ := t
  cases n <;> rfl

/-- Helper: a serialized token array parses back to itself. -/
theorem jsonTokenArray_map (ts : List Token) :
    jsonTokenArray (ts.map tokenToJson) = some ts := by
  induction ts with
  | nil => rfl
  | cons t rest ih => simp [jsonTokenArray, jsonToToken_tokenToJson, ih]

/-- Helper: a serialized string array parses back to itself. -/
theorem jsonStringArray_map (ss : List String) :
    jsonStringArray (ss.map Json.str) = some ss := by
  induction ss with
  | nil => rfl
  | cons s rest ih => simp [jsonStringArray, ih]

/-- Helper: a serialized envelope parses back to itself. -/
theorem jsonToTokenList_roundtrip (e : TokenList) :
    jsonToTokenList (tokenListToJson e) = some e := by
  obtain ⟨n, l, kw, ts, v, tks⟩ := e
  simp [jsonToTokenList, tokenListToJson, jLookup, List.lookup, jsonToVersion,
    versionToJson, jsonStringArray_map, jsonTokenArray_map]

/-- C8: parsing the JSON written to the output file yields an envelope
that deep-equals the written one; in particular its tokens sequence
deep-equals the transformer output for the same upstream data and
NetworkConfig. -/
theorem written_file_roundtrip (key : String) (chainCfg : ChainCfg)
    (geckoData : List GeckoItem) (t1 t2 fn : String) (e : TokenList)
    (hc : CHAIN_CONFIG key = some chainCfg)
    (hw : (runScript (some key) (Except.ok geckoData) t1 t2).writtenFile
            = some (fn, e)) :
    jsonToTokenList (tokenListToJson e) = some e
    ∧ (jsonToTokenList (tokenListToJson e)).map TokenList.tokens
        = some (transformCoinGeckoData geckoData chainCfg) := by
  refine ⟨jsonToTokenList_roundtrip e, ?_⟩
  rw [jsonToTokenList_roundtrip e]
  have hne : key ≠ "" := by
    rintro rfl
    rw [show CHAIN_CONFIG "" = none from rfl] at hc
    cases hc
  simp [runScript, jsStringOr, hne, hc, createTokenListBase,
    fetchTokensFromCoinGecko] at hw
  obtain ⟨-, he⟩ := hw
  subst he
  simp

/-- Witness for C8 at a concrete `base` run over one upstream record. -/
theorem written_file_roundtrip_witness :
    jsonToTokenList (tokenListToJson envA) = some envA
    ∧ (jsonToTokenList (tokenListToJson envA)).map TokenList.tokens
        = some (transformCoinGeckoData [itemA] baseCfg) :=
  written_file_roundtrip "base" baseCfg [itemA] "t1" "t2"
    "base-tokenlist.json" envA rfl (by decide)
